import Mathlib

/-!
Shallow embedding of the estimation and risk-model layer of cvx_portfolio
(src/cvxportfolio/returns.py and src/cvxportfolio/risks.py).

Modelling conventions:
* A return panel is a function `ℕ → ℕ → ℚ` (row timestamp, column asset);
  timestamps are row positions of the pandas DataFrame, the designated
  cash/risk-free column is the last column, whose index `nc` is passed
  explicitly.  Numbers are modelled exactly (ℚ, and ℝ where the source
  takes square roots or exponential-decay powers) rather than as IEEE
  floats.
* A pandas cell that holds NaN (missing) is modelled as `Option.none`.
* Python exceptions are modelled by `Except PyError`.
* The pandas window statistics are translated with their documented
  semantics as the source invokes them: `rolling(window=L)` uses
  `min_periods = L` (the default), `std`/`var`/`cov` use `ddof = 1`
  (the default, sample statistics), `ewm(halflife=h)` uses
  `adjust = True` and unbiased (`bias = False`) moments (the defaults),
  with per-step decay weight `(1/2)^(1/h)`.
-/

/-- Python exceptions raised by the embedded code. -/
inductive PyError where
  | nameError (name : String)
  | attributeError (attr : String)
  | notImplementedError
  | assertionError
  | missingValueError
  deriving DecidableEq, Repr

/-- pandas `shift(1)` on a time-indexed series: row `0` becomes missing and
row `t + 1` holds what row `t` held. -/
def shift1 {α : Type} (f : ℕ → Option α) : ℕ → Option α
  | 0 => none
  | t + 1 => f t

section Stats

variable {K : Type} [Field K]

/-- Sum of a column over the row window `[a, b)`. -/
def icoSum (a b : ℕ) (col : ℕ → K) : K := ∑ i in Finset.Ico a b, col i

/-- Arithmetic mean of a column over the row window `[a, b)`. -/
def icoMean (a b : ℕ) (col : ℕ → K) : K := icoSum a b col / ((b - a : ℕ) : K)

/-- Sample variance (`ddof = 1`, as pandas `var`/`std` default) of a column
over the row window `[a, b)`. -/
def sampleVarIco (a b : ℕ) (col : ℕ → K) : K :=
  (∑ i in Finset.Ico a b, (col i - icoMean a b col) ^ 2) / ((b - a - 1 : ℕ) : K)

/-- Sample covariance (`ddof = 1`) of two columns over the row window `[a, b)`. -/
def sampleCovIco (a b : ℕ) (x y : ℕ → K) : K :=
  (∑ i in Finset.Ico a b, (x i - icoMean a b x) * (y i - icoMean a b y)) /
    ((b - a - 1 : ℕ) : K)

/-- pandas `rolling(window=L).mean()` at row `u`: the mean of the `L` rows
ending at `u`, missing while fewer than `L` rows are available
(`min_periods` defaults to the window length). -/
def rollingMean (L : ℕ) (col : ℕ → K) (u : ℕ) : Option K :=
  if L ≤ u + 1 then some (icoMean (u + 1 - L) (u + 1) col) else none

/-- pandas `rolling(window=L).var()` at row `u` (`ddof = 1`): the sample
variance of the `L` rows ending at `u`; missing while fewer than `L` rows
are available, and missing everywhere when `L = 1` (denominator
`L - ddof = 0` makes pandas produce NaN). -/
def rollingVar (L : ℕ) (col : ℕ → K) (u : ℕ) : Option K :=
  if L ≤ u + 1 ∧ 2 ≤ L then some (sampleVarIco (u + 1 - L) (u + 1) col) else none

/-- pandas pairwise `rolling(window=L).cov()` entry for two columns at row `u`
(`ddof = 1`), with the same definedness as `rollingVar`. -/
def rollingCov (L : ℕ) (x y : ℕ → K) (u : ℕ) : Option K :=
  if L ≤ u + 1 ∧ 2 ≤ L then some (sampleCovIco (u + 1 - L) (u + 1) x y) else none

/-- Total weight `∑_{i ≤ u} w^(u-i)` of the exponential window with per-step
decay `w` at row `u` (pandas `ewm`, `adjust = True`). -/
def ewmWeightSum (w : K) (u : ℕ) : K := ∑ i in Finset.range (u + 1), w ^ (u - i)

/-- pandas `ewm(...).mean()` at row `u` (`adjust = True`): the weighted mean
of rows `0..u` with weight `w^(u-i)` on row `i`.  Defined at every row
(`min_periods` defaults to 0). -/
def ewmMeanVal (w : K) (col : ℕ → K) (u : ℕ) : K :=
  (∑ i in Finset.range (u + 1), w ^ (u - i) * col i) / ewmWeightSum w u

/-- The value of pandas unbiased (`bias = False`, the default) exponentially
weighted covariance of two columns at row `u`: the weighted central comoment
debiased by `W² / (W² - W₂)` where `W` is the sum of weights and `W₂` the sum
of squared weights. -/
def ewmCovVal (w : K) (x y : ℕ → K) (u : ℕ) : K :=
  ((∑ i in Finset.range (u + 1),
      w ^ (u - i) * (x i - ewmMeanVal w x u) * (y i - ewmMeanVal w y u)) /
    ewmWeightSum w u) *
  (ewmWeightSum w u ^ 2 /
    (ewmWeightSum w u ^ 2 - ∑ i in Finset.range (u + 1), (w ^ (u - i)) ^ 2))

/-- pandas `ewm(...).cov()` entry for two columns at row `u`: the unbiased
exponentially weighted covariance, missing at row `0` (there the debiasing
denominator `W² - W₂` vanishes and pandas produces NaN). -/
def ewmCov (w : K) (x y : ℕ → K) (u : ℕ) : Option K :=
  if 1 ≤ u then some (ewmCovVal w x y u) else none

/-- pandas `ewm(...).var()` at row `u`: the diagonal case of `ewmCov`. -/
def ewmVar (w : K) (col : ℕ → K) (u : ℕ) : Option K := ewmCov w col col u

end Stats

/-- The per-step decay weight pandas uses for `ewm(halflife=h)`:
`(1/2) ^ (1/h)`, so that weights halve every `h` periods. -/
noncomputable def halflifeDecay (h : ℝ) : ℝ := ((1 : ℝ) / 2) ^ ((1 : ℝ) / h)

/-- pandas `rolling(window=L).std()` at row `u` composed with the square
root: `std = sqrt(var)` with `ddof = 1`. -/
noncomputable def rollingStd (L : ℕ) (col : ℕ → ℝ) (u : ℕ) : Option ℝ :=
  (rollingVar L col u).map Real.sqrt

/-- Sample standard deviation of a column over the row window `[a, b)`:
the square root of the sample (`ddof = 1`) variance. -/
noncomputable def sampleStdIco (a b : ℕ) (col : ℕ → ℝ) : ℝ :=
  Real.sqrt (sampleVarIco a b col)

/-- Modelled from the spec: `ParameterEstimator` point-in-time lookup
(`cvxportfolio/estimator.py`, which is not under `src/`) — "lookups for a
timestamp with no exact entry fail loudly".  Resolving a missing (NaN)
entry fails with `MissingValueError`; a present entry is returned as is. -/
def ParameterEstimator.values_in_time {α : Type} (v : Option α) : Except PyError α :=
  match v with
  | some x => Except.ok x
  | none => Except.error PyError.missingValueError

namespace RollingWindowReturnsForecast

/-- `RollingWindowReturnsForecast.pre_evaluation` (returns.py lines 78-84):
the derived expected-returns table is
`returns.rolling(window=lookback_period).mean().shift(1)`, except that when
`use_last_for_cash` holds the cash column (the last column, index `nc`) is
replaced by `returns.iloc[:, -1].shift(1)`.  `forecasts` gives the entry of
that table at row `t`, column `j`. -/
def forecasts (lookback_period nc : ℕ) (use_last_for_cash : Bool)
    (returns : ℕ → ℕ → ℚ) (t j : ℕ) : Option ℚ :=
  if use_last_for_cash ∧ j = nc then shift1 (fun s => some (returns s nc)) t
  else shift1 (rollingMean lookback_period (fun s => returns s j)) t

end RollingWindowReturnsForecast

namespace ExponentialWindowReturnsForecast

/-- `ExponentialWindowReturnsForecast.pre_evaluation` (returns.py lines
100-105): the derived expected-returns table is
`returns.ewm(halflife=half_life).mean().shift(1)`, with the same cash-column
replacement as the rolling variant. -/
noncomputable def forecasts (half_life : ℝ) (nc : ℕ) (use_last_for_cash : Bool)
    (returns : ℕ → ℕ → ℚ) (t j : ℕ) : Option ℝ :=
  if use_last_for_cash ∧ j = nc then shift1 (fun s => some ((returns s nc : ℚ) : ℝ)) t
  else
    shift1 (fun u =>
      some (ewmMeanVal (halflifeDecay half_life) (fun s => ((returns s j : ℚ) : ℝ)) u)) t

end ExponentialWindowReturnsForecast

namespace RollingWindowReturnsForecastErrorRisk

/-- `RollingWindowReturnsForecastErrorRisk.pre_evaluation` (returns.py lines
149-155): the forecast-error table is
`returns.rolling(window=lookback_period).std().shift(1) / sqrt(lookback_period)`,
and when `zero_for_cash` holds the cash column is overwritten with `0.0`
(at every row, including rows where the rolling statistic was NaN). -/
noncomputable def deltas_errors (lookback_period : ℕ) (zero_for_cash : Bool) (nc : ℕ)
    (returns : ℕ → ℕ → ℚ) (t j : ℕ) : Option ℝ :=
  if zero_for_cash ∧ j = nc then some 0
  else
    (shift1 (rollingStd lookback_period (fun s => ((returns s j : ℚ) : ℝ))) t).map
      (fun x => x / Real.sqrt (lookback_period : ℝ))

end RollingWindowReturnsForecastErrorRisk

namespace RollingWindowFullCovariance

/-- `RollingWindowFullCovariance.pre_evaluation` (risks.py lines 102-112):
after dropping the cash column the covariance table is
`returns.rolling(window=lookback_period).cov().shift(returns.shape[1])`.
The stacked covariance frame is indexed by (row timestamp, asset) and every
timestamp contributes exactly `returns.shape[1]` rows, so shifting it by
`returns.shape[1]` rows moves each timestamp's covariance block to the next
timestamp: the matrix attributed to row `t` is the rolling covariance of the
window ending at row `t - 1`.  `Sigma` gives the `(i, j)` entry of the
matrix at row `t`; callers use non-cash column indices `i`, `j`. -/
def Sigma (lookback_period : ℕ) (returns : ℕ → ℕ → ℚ) (t i j : ℕ) : Option ℚ :=
  shift1 (rollingCov lookback_period (fun s => returns s i) (fun s => returns s j)) t

end RollingWindowFullCovariance

namespace ExponentialWindowFullCovariance

/-- `ExponentialWindowFullCovariance.pre_evaluation` (risks.py lines
129-140): as the rolling variant, with
`returns.ewm(halflife=half_life).cov().shift(returns.shape[1])`. -/
noncomputable def Sigma (half_life : ℝ) (returns : ℕ → ℕ → ℚ) (t i j : ℕ) : Option ℝ :=
  shift1 (ewmCov (halflifeDecay half_life)
    (fun s => ((returns s i : ℚ) : ℝ)) (fun s => ((returns s j : ℚ) : ℝ))) t

end ExponentialWindowFullCovariance

namespace RollingWindowDiagonalCovariance

/-- `RollingWindowDiagonalCovariance.pre_evaluation` (risks.py lines
173-182): after dropping the cash column the standard-deviations table is
`np.sqrt(returns.rolling(window=lookback_period).var().shift(1))`. -/
noncomputable def standard_deviations (lookback_period : ℕ) (returns : ℕ → ℕ → ℚ)
    (t j : ℕ) : Option ℝ :=
  (shift1 (rollingVar lookback_period (fun s => ((returns s j : ℚ) : ℝ))) t).map Real.sqrt

end RollingWindowDiagonalCovariance

namespace ExponentialWindowDiagonalCovariance

/-- `ExponentialWindowDiagonalCovariance.pre_evaluation` (risks.py lines
199-209): after dropping the cash column the standard-deviations table is
`np.sqrt(returns.ewm(halflife=half_life).var().shift(1))`. -/
noncomputable def standard_deviations (half_life : ℝ) (returns : ℕ → ℕ → ℚ)
    (t j : ℕ) : Option ℝ :=
  (shift1 (ewmVar (halflifeDecay half_life) (fun s => ((returns s j : ℚ) : ℝ))) t).map
    Real.sqrt

end ExponentialWindowDiagonalCovariance

/-- `cvx.quad_form(x, M) = xᵀ M x`, written with explicit sums. -/
def quadForm {R : Type} [CommRing R] {n : ℕ} (M : Fin n → Fin n → R) (x : Fin n → R) : R :=
  ∑ i, ∑ j, x i * M i j * x j

namespace FullCovariance

/-- `FullCovariance.compile_to_cvxpy` (risks.py lines 84-85):
`cvx.quad_form(w_plus - self.benchmark_weights, self.Sigma)`, evaluated at a
concrete holdings vector. -/
def compile_to_cvxpy {R : Type} [CommRing R] {n : ℕ} (Sigma : Fin n → Fin n → R)
    (benchmark_weights w_plus : Fin n → R) : R :=
  quadForm Sigma (fun i => w_plus i - benchmark_weights i)

end FullCovariance

namespace DiagonalCovariance

/-- `DiagonalCovariance.compile_to_cvxpy` (risks.py lines 155-156):
`cvx.sum_squares(cvx.multiply(w_plus, self.standard_deviations))`.  Note that
the body uses `w_plus` itself; `self.benchmark_weights` does not appear. -/
def compile_to_cvxpy {R : Type} [CommRing R] {n : ℕ}
    (standard_deviations w_plus : Fin n → R) : R :=
  ∑ i, (w_plus i * standard_deviations i) ^ 2

end DiagonalCovariance

namespace FactorModelSigma

/-- `FactorModelSigma.compile_to_cvxpy` (risks.py lines 243-250).  The
method's parameter is named `w_plus`, but its body refers throughout to the
name `wplus`, which is bound nowhere: it is not a parameter, not a local,
not defined at module scope in risks.py, and not a builtin.  Python
therefore raises `NameError: name 'wplus' is not defined` on every call,
before any expression is constructed and before the assignment to
`self.expression` happens. -/
def compile_to_cvxpy {n k : ℕ} (exposures : Fin k → Fin n → ℚ)
    (factor_Sigma : Fin k → Fin k → ℚ) (idiosync : Fin n → ℚ)
    (w_plus : Fin n → ℚ) : Except PyError ℚ :=
  Except.error (PyError.nameError "wplus")

/-- The body of `FactorModelSigma.compile_to_cvxpy` as evidently intended,
reading `wplus` as the parameter `w_plus`:
`cvx.sum_squares(cvx.multiply(np.sqrt(idiosync), w)) +
 cvx.quad_form((w.T @ exposures.T).T, factor_Sigma)`, where
`(w.T @ exposures.T).T` is the factor-exposure vector `a ↦ ∑ i, E a i * w i`
(`exposures` stored as factors × assets). -/
noncomputable def compile_intended {n k : ℕ} (exposures : Fin k → Fin n → ℝ)
    (factor_Sigma : Fin k → Fin k → ℝ) (idiosync : Fin n → ℝ)
    (w_plus : Fin n → ℝ) : ℝ :=
  (∑ i, (Real.sqrt (idiosync i) * w_plus i) ^ 2) +
    quadForm factor_Sigma (fun a => ∑ i, exposures a i * w_plus i)

end FactorModelSigma

/-- The state of a legacy risk model as seen by the migrated
`BaseRiskModel.weight_expr`: its `_estimate` semantics (the numeric value of
the compiled expression, as a function of the deviation vector `_estimate`
receives), its `w_bench`, and the stored `self.expression` field, modelled
by the realized value of the stored expression (`none` before any call). -/
structure LegacyRiskModel (n : ℕ) where
  estimate : (Fin n → ℚ) → ℚ
  w_bench : Fin n → ℚ
  expression : Option ℚ

/-- Python truthiness of the realized value of a scalar expression:
`None` (modelled `none`) is falsy, the float `0.0` is falsy, every other
number is truthy. -/
def pyTruthy (v : Option ℚ) : Bool :=
  match v with
  | none => false
  | some x => x != 0

namespace BaseRiskModel

/-- `BaseRiskModel.weight_expr` (risks.py lines 57-60): it calls
`self._estimate(t, w_plus - self.w_bench, z, value)`, stores the result in
`self.expression`, and returns the pair `(self.expression, [])`.  Modelled
with explicit state passing: the first component is the updated model, the
second the returned pair. -/
def weight_expr {n : ℕ} (m : LegacyRiskModel n) (w_plus : Fin n → ℚ) :
    LegacyRiskModel n × (ℚ × List Unit) :=
  let e := m.estimate (fun i => w_plus i - m.w_bench i)
  ({ m with expression := some e }, (e, []))

/-- `BaseRiskModel.optimization_log` (risks.py lines 63-67): returns
`self.expression.value` if it is truthy and `np.NaN` otherwise.  The input
`none` models an expression without a realized value (`.value` is `None`);
the output `none` models `np.NaN`. -/
def optimization_log (v : Option ℚ) : Option ℚ :=
  if pyTruthy v then v else none

end BaseRiskModel

namespace WorstCaseRisk

/-- `WorstCaseRisk._estimate` (risks.py lines 304-306) first computes
`self.risks = [risk.weight_expr(t, wplus, z, value) for risk in self.riskmodels]`.
Since the migrated `BaseRiskModel.weight_expr` returns the pair
`(self.expression, [])`, each list element is such a pair (not an
expression); `cvx.max_elemwise(*self.risks)` is then applied to those
pairs.  `risks` models the list that `_estimate` stores. -/
def risks {n : ℕ} (riskmodels : List (LegacyRiskModel n)) (w_plus : Fin n → ℚ) :
    List (ℚ × List Unit) :=
  riskmodels.map (fun m => (BaseRiskModel.weight_expr m w_plus).2)

/-- Python attribute access `p.value` on a tuple: tuples have no attribute
`value`, so the access raises
`AttributeError: 'tuple' object has no attribute 'value'`. -/
def tupleValueAttr {α β : Type} (p : α × β) : Except PyError ℚ :=
  Except.error (PyError.attributeError "value")

/-- `WorstCaseRisk.optimization_log` (risks.py lines 308-313): it builds
`pd.Series(..., data=[risk.value[0, 0] for risk in self.risks])` where
`self.risks` holds the `(expression, constraints)` pairs stored by
`_estimate`.  The comprehension evaluates `risk.value` on each pair in input
order and propagates the first exception, modelled by `mapM` over `Except`. -/
def optimization_log {n : ℕ} (riskmodels : List (LegacyRiskModel n))
    (w_plus : Fin n → ℚ) : Except PyError (List ℚ) :=
  (risks riskmodels w_plus).mapM tupleValueAttr

end WorstCaseRisk

namespace RollingWindowReturnsForecast

/-- `RollingWindowReturnsForecast.__init__` (returns.py lines 74-76): stores
the two hyperparameters; nothing can fail. -/
def init (lookback_period : ℕ) (use_last_for_cash : Bool) :
    Except PyError (ℕ × Bool) :=
  Except.ok (lookback_period, use_last_for_cash)

end RollingWindowReturnsForecast

namespace ExponentialWindowReturnsForecast

/-- `ExponentialWindowReturnsForecast.__init__` (returns.py lines 96-98):
stores the two hyperparameters; nothing can fail. -/
def init (half_life : ℝ) (use_last_for_cash : Bool) :
    Except PyError (ℝ × Bool) :=
  Except.ok (half_life, use_last_for_cash)

end ExponentialWindowReturnsForecast

namespace RollingWindowReturnsForecastErrorRisk

/-- `RollingWindowReturnsForecastErrorRisk.__init__` (returns.py lines
145-147): stores the two hyperparameters; nothing can fail. -/
def init (lookback_period : ℕ) (zero_for_cash : Bool) :
    Except PyError (ℕ × Bool) :=
  Except.ok (lookback_period, zero_for_cash)

end RollingWindowReturnsForecastErrorRisk

namespace ExponentialWindowReturnsForecastErrorRisk

/-- `ExponentialWindowReturnsForecastErrorRisk.__init__` (returns.py lines
165-166): the body is `raise NotImplementedError`, so construction fails
unconditionally. -/
def init : Except PyError Unit :=
  Except.error PyError.notImplementedError

end ExponentialWindowReturnsForecastErrorRisk

namespace RollingWindowFullCovariance

/-- `RollingWindowFullCovariance.__init__` (risks.py lines 99-100): stores
the hyperparameter; nothing can fail. -/
def init (lookback_period : ℕ) : Except PyError ℕ :=
  Except.ok lookback_period

end RollingWindowFullCovariance

namespace ExponentialWindowFullCovariance

/-- `ExponentialWindowFullCovariance.__init__` (risks.py lines 126-127):
stores the hyperparameter; nothing can fail. -/
def init (half_life : ℝ) : Except PyError ℝ :=
  Except.ok half_life

end ExponentialWindowFullCovariance

namespace RollingWindowDiagonalCovariance

/-- `RollingWindowDiagonalCovariance.__init__` (risks.py lines 170-171):
stores the hyperparameter; nothing can fail. -/
def init (lookback_period : ℕ) : Except PyError ℕ :=
  Except.ok lookback_period

end RollingWindowDiagonalCovariance

namespace ExponentialWindowDiagonalCovariance

/-- `ExponentialWindowDiagonalCovariance.__init__` (risks.py lines 196-197):
stores the hyperparameter; nothing can fail. -/
def init (half_life : ℝ) : Except PyError ℝ :=
  Except.ok half_life

end ExponentialWindowDiagonalCovariance

namespace WorstCaseRisk

/-- `WorstCaseRisk.__init__` (risks.py lines 300-302): stores the component
list; nothing can fail. -/
def init {n : ℕ} (riskmodels : List (LegacyRiskModel n)) :
    Except PyError (List (LegacyRiskModel n)) :=
  Except.ok riskmodels

end WorstCaseRisk

namespace EmpSigma

/-- `EmpSigma.__init__` (risks.py lines 217-222): stores `returns` and
`lookback`, then runs `assert not np.any(pd.isnull(returns))` — construction
fails with `AssertionError` exactly when the supplied data contains a null
(NaN) entry.  The data is a finite table whose cells may be null. -/
def init (returns : List (List (Option ℚ))) (lookback : ℕ) :
    Except PyError (List (List (Option ℚ)) × ℕ) :=
  if returns.any (fun row => row.any (fun c => c.isNone)) then
    Except.error PyError.assertionError
  else Except.ok (returns, lookback)

end EmpSigma

theorem icoSum_congr {K : Type} [Field K] {t b : ℕ} (hb : b ≤ t) (a : ℕ)
    {f g : ℕ → K} (h : ∀ s, s < t → f s = g s) :
    icoSum a b f = icoSum a b g :=
  Finset.sum_congr rfl fun i hi =>
    h i (lt_of_lt_of_le (Finset.mem_Ico.mp hi).2 hb)

theorem icoMean_congr {K : Type} [Field K] {t b : ℕ} (hb : b ≤ t) (a : ℕ)
    {f g : ℕ → K} (h : ∀ s, s < t → f s = g s) :
    icoMean a b f = icoMean a b g := by
  unfold icoMean
  rw [icoSum_congr hb a h]

theorem sampleVarIco_congr {K : Type} [Field K] {t b : ℕ} (hb : b ≤ t) (a : ℕ)
    {f g : ℕ → K} (h : ∀ s, s < t → f s = g s) :
    sampleVarIco a b f = sampleVarIco a b g := by
  have hm := icoMean_congr hb a h
  unfold sampleVarIco
  rw [hm]
  congr 1
  refine Finset.sum_congr rfl fun i hi => ?_
  rw [h i (lt_of_lt_of_le (Finset.mem_Ico.mp hi).2 hb)]

theorem sampleCovIco_congr {K : Type} [Field K] {t b : ℕ} (hb : b ≤ t) (a : ℕ)
    {x x' y y' : ℕ → K} (hx : ∀ s, s < t → x s = x' s)
    (hy : ∀ s, s < t → y s = y' s) :
    sampleCovIco a b x y = sampleCovIco a b x' y' := by
  have hmx := icoMean_congr hb a hx
  have hmy := icoMean_congr hb a hy
  unfold sampleCovIco
  rw [hmx, hmy]
  congr 1
  refine Finset.sum_congr rfl fun i hi => ?_
  have hi2 := lt_of_lt_of_le (Finset.mem_Ico.mp hi).2 hb
  rw [hx i hi2, hy i hi2]

theorem rollingMean_congr {K : Type} [Field K] {t u : ℕ} (hu : u < t) (L : ℕ)
    {f g : ℕ → K} (h : ∀ s, s < t → f s = g s) :
    rollingMean L f u = rollingMean L g u := by
  unfold rollingMean
  split
  · exact congrArg some (icoMean_congr (Nat.succ_le_of_lt hu) _ h)
  · rfl

theorem rollingVar_congr {K : Type} [Field K] {t u : ℕ} (hu : u < t) (L : ℕ)
    {f g : ℕ → K} (h : ∀ s, s < t → f s = g s) :
    rollingVar L f u = rollingVar L g u := by
  unfold rollingVar
  split
  · exact congrArg some (sampleVarIco_congr (Nat.succ_le_of_lt hu) _ h)
  · rfl

theorem rollingCov_congr {K : Type} [Field K] {t u : ℕ} (hu : u < t) (L : ℕ)
    {x x' y y' : ℕ → K} (hx : ∀ s, s < t → x s = x' s)
    (hy : ∀ s, s < t → y s = y' s) :
    rollingCov L x y u = rollingCov L x' y' u := by
  unfold rollingCov
  split
  · exact congrArg some (sampleCovIco_congr (Nat.succ_le_of_lt hu) _ hx hy)
  · rfl

theorem ewmMeanVal_congr {K : Type} [Field K] {t u : ℕ} (hu : u < t) (w : K)
    {f g : ℕ → K} (h : ∀ s, s < t → f s = g s) :
    ewmMeanVal w f u = ewmMeanVal w g u := by
  unfold ewmMeanVal
  congr 1
  refine Finset.sum_congr rfl fun i hi => ?_
  rw [h i (lt_of_lt_of_le (Finset.mem_range.mp hi) (Nat.succ_le_of_lt hu))]

theorem ewmCovVal_congr {K : Type} [Field K] {t u : ℕ} (hu : u < t) (w : K)
    {x x' y y' : ℕ → K} (hx : ∀ s, s < t → x s = x' s)
    (hy : ∀ s, s < t → y s = y' s) :
    ewmCovVal w x y u = ewmCovVal w x' y' u := by
  have hmx := ewmMeanVal_congr hu w hx
  have hmy := ewmMeanVal_congr hu w hy
  unfold ewmCovVal
  rw [hmx, hmy]
  congr 2
  refine Finset.sum_congr rfl fun i hi => ?_
  have hi2 := lt_of_lt_of_le (Finset.mem_range.mp hi) (Nat.succ_le_of_lt hu)
  rw [hx i hi2, hy i hi2]

theorem ewmCov_congr {K : Type} [Field K] {t u : ℕ} (hu : u < t) (w : K)
    {x x' y y' : ℕ → K} (hx : ∀ s, s < t → x s = x' s)
    (hy : ∀ s, s < t → y s = y' s) :
    ewmCov w x y u = ewmCov w x' y' u := by
  unfold ewmCov
  split
  · exact congrArg some (ewmCovVal_congr hu w hx hy)
  · rfl

theorem ewmVar_congr {K : Type} [Field K] {t u : ℕ} (hu : u < t) (w : K)
    {f g : ℕ → K} (h : ∀ s, s < t → f s = g s) :
    ewmVar w f u = ewmVar w g u :=
  ewmCov_congr hu w h h

theorem rollingStd_congr {t u : ℕ} (hu : u < t) (L : ℕ)
    {f g : ℕ → ℝ} (h : ∀ s, s < t → f s = g s) :
    rollingStd L f u = rollingStd L g u := by
  unfold rollingStd
  rw [rollingVar_congr hu L h]

theorem shift1_congr {α : Type} {t : ℕ} {F G : ℕ → Option α}
    (h : ∀ u, u < t → F u = G u) : shift1 F t = shift1 G t := by
  cases t with
  | zero => rfl
  | succ s => exact h s (Nat.lt_succ_self s)

/-- Claim C1: for every rolling or exponential window estimator (return
forecast, forecast-error, full covariance, diagonal variances), the value
attributed to timestamp `t` is a function only of return-panel rows at
timestamps strictly before `t`: two panels that agree on all rows before `t`
yield identical estimates at `t`, so mutating rows at or after `t` does not
change them. -/
theorem no_lookahead_uses_only_strict_past
    (t : ℕ) (r r' : ℕ → ℕ → ℚ)
    (h : ∀ s, s < t → ∀ j, r s j = r' s j)
    (L : ℕ) (hl : ℝ) (nc : ℕ) (use_last zero_cash : Bool) (i j : ℕ) :
    RollingWindowReturnsForecast.forecasts L nc use_last r t j
      = RollingWindowReturnsForecast.forecasts L nc use_last r' t j
  ∧ ExponentialWindowReturnsForecast.forecasts hl nc use_last r t j
      = ExponentialWindowReturnsForecast.forecasts hl nc use_last r' t j
  ∧ RollingWindowReturnsForecastErrorRisk.deltas_errors L zero_cash nc r t j
      = RollingWindowReturnsForecastErrorRisk.deltas_errors L zero_cash nc r' t j
  ∧ RollingWindowFullCovariance.Sigma L r t i j
      = RollingWindowFullCovariance.Sigma L r' t i j
  ∧ ExponentialWindowFullCovariance.Sigma hl r t i j
      = ExponentialWindowFullCovariance.Sigma hl r' t i j
  ∧ RollingWindowDiagonalCovariance.standard_deviations L r t j
      = RollingWindowDiagonalCovariance.standard_deviations L r' t j
  ∧ ExponentialWindowDiagonalCovariance.standard_deviations hl r t j
      = ExponentialWindowDiagonalCovariance.standard_deviations hl r' t j := by
  have hcol : ∀ c : ℕ, ∀ s, s < t → r s c = r' s c := fun c s hs => h s hs c
  have hcolR : ∀ c : ℕ, ∀ s, s < t → ((r s c : ℚ) : ℝ) = ((r' s c : ℚ) : ℝ) :=
    fun c s hs => by rw [h s hs c]
  refine ⟨?_, ?_, ?_, ?_, ?_, ?_, ?_⟩
  · unfold RollingWindowReturnsForecast.forecasts
    split
    · exact shift1_congr fun u hu => by rw [h u hu nc]
    · exact shift1_congr fun u hu => rollingMean_congr hu L (hcol j)
  · unfold ExponentialWindowReturnsForecast.forecasts
    split
    · exact shift1_congr fun u hu => by rw [h u hu nc]
    · exact shift1_congr fun u hu =>
        congrArg some (ewmMeanVal_congr hu (halflifeDecay hl) (hcolR j))
  · unfold RollingWindowReturnsForecastErrorRisk.deltas_errors
    split
    · rfl
    · exact congrArg (Option.map _)
        (shift1_congr fun u hu => rollingStd_congr hu L (hcolR j))
  · exact shift1_congr fun u hu => rollingCov_congr hu L (hcol i) (hcol j)
  · exact shift1_congr fun u hu =>
      ewmCov_congr hu (halflifeDecay hl) (hcolR i) (hcolR j)
  · exact congrArg (Option.map Real.sqrt)
      (shift1_congr fun u hu => rollingVar_congr hu L (hcolR j))
  · exact congrArg (Option.map Real.sqrt)
      (shift1_congr fun u hu => ewmVar_congr hu (halflifeDecay hl) (hcolR j))

/-- Witness for C1: two concrete panels that agree on rows 0 and 1 but
differ from row 2 on, evaluated at `t = 2`. -/
theorem no_lookahead_witness :
    (∀ s, s < 2 → ∀ c : ℕ,
        (fun s c => if s < 2 then ((s + c : ℕ) : ℚ) else 99) s c
      = (fun s c => if s < 2 then ((s + c : ℕ) : ℚ) else 77) s c)
  ∧ (RollingWindowReturnsForecast.forecasts 2 1 true
        (fun s c => if s < 2 then ((s + c : ℕ) : ℚ) else 99) 2 0
      = RollingWindowReturnsForecast.forecasts 2 1 true
        (fun s c => if s < 2 then ((s + c : ℕ) : ℚ) else 77) 2 0
  ∧ ExponentialWindowReturnsForecast.forecasts 1 1 true
        (fun s c => if s < 2 then ((s + c : ℕ) : ℚ) else 99) 2 0
      = ExponentialWindowReturnsForecast.forecasts 1 1 true
        (fun s c => if s < 2 then ((s + c : ℕ) : ℚ) else 77) 2 0
  ∧ RollingWindowReturnsForecastErrorRisk.deltas_errors 2 true 1
        (fun s c => if s < 2 then ((s + c : ℕ) : ℚ) else 99) 2 0
      = RollingWindowReturnsForecastErrorRisk.deltas_errors 2 true 1
        (fun s c => if s < 2 then ((s + c : ℕ) : ℚ) else 77) 2 0
  ∧ RollingWindowFullCovariance.Sigma 2
        (fun s c => if s < 2 then ((s + c : ℕ) : ℚ) else 99) 2 0 0
      = RollingWindowFullCovariance.Sigma 2
        (fun s c => if s < 2 then ((s + c : ℕ) : ℚ) else 77) 2 0 0
  ∧ ExponentialWindowFullCovariance.Sigma 1
        (fun s c => if s < 2 then ((s + c : ℕ) : ℚ) else 99) 2 0 0
      = ExponentialWindowFullCovariance.Sigma 1
        (fun s c => if s < 2 then ((s + c : ℕ) : ℚ) else 77) 2 0 0
  ∧ RollingWindowDiagonalCovariance.standard_deviations 2
        (fun s c => if s < 2 then ((s + c : ℕ) : ℚ) else 99) 2 0
      = RollingWindowDiagonalCovariance.standard_deviations 2
        (fun s c => if s < 2 then ((s + c : ℕ) : ℚ) else 77) 2 0
  ∧ ExponentialWindowDiagonalCovariance.standard_deviations 1
        (fun s c => if s < 2 then ((s + c : ℕ) : ℚ) else 99) 2 0
      = ExponentialWindowDiagonalCovariance.standard_deviations 1
        (fun s c => if s < 2 then ((s + c : ℕ) : ℚ) else 77) 2 0) := by
  have h : ∀ s, s < 2 → ∀ c : ℕ,
      (fun s c => if s < 2 then ((s + c : ℕ) : ℚ) else 99) s c
    = (fun s c => if s < 2 then ((s + c : ℕ) : ℚ) else 77) s c := by
    intro s hs c
    simp only
    rw [if_pos hs, if_pos hs]
  exact ⟨h, no_lookahead_uses_only_strict_past 2 _ _ h 2 1 1 true true 0 0⟩

/-- Claim C2: for the rolling-window mean return forecast with window `L`
(on a column not subject to the cash special case), the forecast attributed
to row `L` — the `(L+1)`-th timestamp — is the arithmetic mean of the first
`L` periods, while at rows `0 .. L-1` the forecast is missing and resolving
it fails with `MissingValueError` instead of yielding a partial-window
estimate. -/
theorem rolling_mean_forecast_window_alignment
    (L nc j : ℕ) (use_last : Bool) (r : ℕ → ℕ → ℚ)
    (hL : 1 ≤ L) (hj : ¬(use_last ∧ j = nc)) :
    (∀ t, t < L →
      RollingWindowReturnsForecast.forecasts L nc use_last r t j = none
      ∧ ParameterEstimator.values_in_time
          (RollingWindowReturnsForecast.forecasts L nc use_last r t j)
        = Except.error PyError.missingValueError)
  ∧ RollingWindowReturnsForecast.forecasts L nc use_last r L j
      = some ((∑ i in Finset.range L, r i j) / (L : ℚ)) := by
  constructor
  · intro t ht
    have hnone : RollingWindowReturnsForecast.forecasts L nc use_last r t j = none := by
      unfold RollingWindowReturnsForecast.forecasts
      rw [if_neg hj]
      cases t with
      | zero => rfl
      | succ s =>
        show rollingMean L (fun u => r u j) s = none
        unfold rollingMean
        rw [if_neg (by omega)]
    exact ⟨hnone, by rw [hnone]; rfl⟩
  · unfold RollingWindowReturnsForecast.forecasts
    rw [if_neg hj]
    obtain ⟨s, rfl⟩ : ∃ s, L = s + 1 := ⟨L - 1, by omega⟩
    show rollingMean (s + 1) (fun u => r u j) s = _
    unfold rollingMean
    rw [if_pos (by omega)]
    congr 1
    rw [Nat.sub_self]
    unfold icoMean icoSum
    rw [← Finset.range_eq_Ico, Nat.sub_zero]

/-- Witness for C2: window `L = 2`, non-cash column `0`, a concrete panel. -/
theorem rolling_mean_forecast_window_alignment_witness :
    1 ≤ 2 ∧ ¬((true : Bool) ∧ (0 : ℕ) = 1)
  ∧ ((∀ t, t < 2 →
      RollingWindowReturnsForecast.forecasts 2 1 true
        (fun s c => ((s + c : ℕ) : ℚ)) t 0 = none
      ∧ ParameterEstimator.values_in_time
          (RollingWindowReturnsForecast.forecasts 2 1 true
            (fun s c => ((s + c : ℕ) : ℚ)) t 0)
        = Except.error PyError.missingValueError)
  ∧ RollingWindowReturnsForecast.forecasts 2 1 true
        (fun s c => ((s + c : ℕ) : ℚ)) 2 0
      = some ((∑ i in Finset.range 2, ((i + 0 : ℕ) : ℚ)) / (2 : ℚ))) :=
  ⟨by decide, by decide,
    rolling_mean_forecast_window_alignment 2 1 0 true
      (fun s c => ((s + c : ℕ) : ℚ)) (by decide) (by decide)⟩

/-- Claim C3: for both the rolling and the exponential return forecast with
`use_last_for_cash = True`, the cash-column forecast at any row `t ≥ 1` is
exactly the realized cash return at row `t - 1`, for every lookback period
and half-life. -/
theorem cash_forecast_is_last_realized
    (L : ℕ) (hl : ℝ) (nc : ℕ) (r : ℕ → ℕ → ℚ) (t : ℕ) (ht : 1 ≤ t) :
    RollingWindowReturnsForecast.forecasts L nc true r t nc = some (r (t - 1) nc)
  ∧ ExponentialWindowReturnsForecast.forecasts hl nc true r t nc
      = some ((r (t - 1) nc : ℚ) : ℝ) := by
  obtain ⟨s, rfl⟩ : ∃ s, t = s + 1 := ⟨t - 1, by omega⟩
  constructor
  · unfold RollingWindowReturnsForecast.forecasts
    rw [if_pos ⟨rfl, rfl⟩]
    rfl
  · unfold ExponentialWindowReturnsForecast.forecasts
    rw [if_pos ⟨rfl, rfl⟩]
    rfl

/-- Witness for C3: `t = 1`, with different window parameters on the two
variants to exhibit parameter independence. -/
theorem cash_forecast_is_last_realized_witness :
    1 ≤ 1
  ∧ (RollingWindowReturnsForecast.forecasts 250 2 true
        (fun s c => ((s + c : ℕ) : ℚ)) 1 2 = some (((1 - 1) + 2 : ℕ) : ℚ)
  ∧ ExponentialWindowReturnsForecast.forecasts 3 2 true
        (fun s c => ((s + c : ℕ) : ℚ)) 1 2 = some (((((1 - 1) + 2 : ℕ) : ℚ) : ℝ))) :=
  ⟨by decide,
    cash_forecast_is_last_realized 250 3 2 (fun s c => ((s + c : ℕ) : ℚ)) 1 (by decide)⟩

/-- Claim C7: for the rolling forecast-error estimator with window `L ≥ 2`
and `zero_for_cash = True`, the non-cash value attributed to a row `t` with
at least `L` preceding rows is exactly the sample standard deviation of the
`L` rows preceding `t`, divided by `sqrt L` (the standard error of the
mean), and the cash column is `0` at every row. -/
theorem forecast_error_is_std_error_of_mean
    (L nc j t : ℕ) (r : ℕ → ℕ → ℚ)
    (hL : 2 ≤ L) (ht : L ≤ t) (hj : j ≠ nc) :
    RollingWindowReturnsForecastErrorRisk.deltas_errors L true nc r t j
      = some (sampleStdIco (t - L) t (fun s => ((r s j : ℚ) : ℝ)) / Real.sqrt (L : ℝ))
  ∧ ∀ u, RollingWindowReturnsForecastErrorRisk.deltas_errors L true nc r u nc
      = some 0 := by
  constructor
  · unfold RollingWindowReturnsForecastErrorRisk.deltas_errors
    rw [if_neg (fun hc => hj hc.2)]
    obtain ⟨s, rfl⟩ : ∃ s, t = s + 1 := ⟨t - 1, by omega⟩
    show (rollingStd L _ s).map _ = _
    unfold rollingStd rollingVar
    rw [if_pos ⟨by omega, hL⟩]
    simp only [Option.map_some']
    rfl
  · intro u
    unfold RollingWindowReturnsForecastErrorRisk.deltas_errors
    rw [if_pos ⟨rfl, rfl⟩]

/-- Witness for C7: window `L = 2` at row `t = 2`, non-cash column `0`. -/
theorem forecast_error_is_std_error_of_mean_witness :
    2 ≤ 2 ∧ 2 ≤ 2 ∧ (0 : ℕ) ≠ 1
  ∧ (RollingWindowReturnsForecastErrorRisk.deltas_errors 2 true 1
        (fun s c => ((s + c : ℕ) : ℚ)) 2 0
      = some (sampleStdIco (2 - 2) 2 (fun s => (((fun s c => ((s + c : ℕ) : ℚ)) s 0 : ℚ) : ℝ))
          / Real.sqrt ((2 : ℕ) : ℝ))
  ∧ ∀ u, RollingWindowReturnsForecastErrorRisk.deltas_errors 2 true 1
        (fun s c => ((s + c : ℕ) : ℚ)) u 1 = some 0) :=
  ⟨by decide, by decide, by decide,
    forecast_error_is_std_error_of_mean 2 1 0 2
      (fun s c => ((s + c : ℕ) : ℚ)) (by decide) (by decide) (by decide)⟩

theorem sum_diag_quad {R : Type} [CommRing R] {n : ℕ} (d x : Fin n → R) :
    (∑ i, ∑ j, x i * (if i = j then d i else 0) * x j) = ∑ i, d i * x i ^ 2 := by
  refine Finset.sum_congr rfl fun i _ => ?_
  rw [Finset.sum_eq_single i]
  · rw [if_pos rfl]; ring
  · intro b _ hb
    rw [if_neg (fun hh => hb hh.symm)]
    ring
  · intro hmem
    exact absurd (Finset.mem_univ i) hmem

theorem sum_factor_quad {R : Type} [CommRing R] {n k : ℕ}
    (E : Fin k → Fin n → R) (F : Fin k → Fin k → R) (x : Fin n → R) :
    (∑ i, ∑ j, x i * (∑ a, ∑ b, E a i * F a b * E b j) * x j)
      = ∑ a, ∑ b, (∑ i, E a i * x i) * F a b * (∑ j, E b j * x j) := by
  have swap4 : ∀ f : Fin n → Fin n → Fin k → Fin k → R,
      (∑ i, ∑ j, ∑ a, ∑ b, f i j a b) = ∑ a, ∑ b, ∑ i, ∑ j, f i j a b := by
    intro f
    calc (∑ i, ∑ j, ∑ a, ∑ b, f i j a b)
        = ∑ i, ∑ a, ∑ j, ∑ b, f i j a b :=
          Finset.sum_congr rfl fun i _ => by rw [Finset.sum_comm]
      _ = ∑ a, ∑ i, ∑ j, ∑ b, f i j a b := by rw [Finset.sum_comm]
      _ = ∑ a, ∑ i, ∑ b, ∑ j, f i j a b :=
          Finset.sum_congr rfl fun a _ =>
            Finset.sum_congr rfl fun i _ => by rw [Finset.sum_comm]
      _ = ∑ a, ∑ b, ∑ i, ∑ j, f i j a b :=
          Finset.sum_congr rfl fun a _ => by rw [Finset.sum_comm]
  calc (∑ i, ∑ j, x i * (∑ a, ∑ b, E a i * F a b * E b j) * x j)
      = ∑ i, ∑ j, ∑ a, ∑ b, x i * (E a i * F a b * E b j) * x j := by
        refine Finset.sum_congr rfl fun i _ => Finset.sum_congr rfl fun j _ => ?_
        rw [Finset.mul_sum, Finset.sum_mul]
        refine Finset.sum_congr rfl fun a _ => ?_
        rw [Finset.mul_sum, Finset.sum_mul]
    _ = ∑ a, ∑ b, ∑ i, ∑ j, x i * (E a i * F a b * E b j) * x j := swap4 _
    _ = ∑ a, ∑ b, (∑ i, E a i * x i) * F a b * (∑ j, E b j * x j) := by
        refine Finset.sum_congr rfl fun a _ => Finset.sum_congr rfl fun b _ => ?_
        rw [Finset.sum_mul, Finset.sum_mul]
        refine (Finset.sum_congr rfl fun i _ => ?_).symm.symm
        rw [Finset.mul_sum]
        refine Finset.sum_congr rfl fun j _ => ?_
        ring

/-- Counterexample for C4: with standard deviations `[1]`, benchmark
weights `[1]` and holdings `[1]`, the diagonal model compiles to `1`
(it penalizes the raw holdings) while the full-covariance model on
`Σ = diag(1²)` compiles to `0` (it penalizes the deviation from the
benchmark), so the two model paths disagree for a nonzero benchmark. -/
theorem diagonal_vs_full_nonzero_benchmark_counterexample :
    DiagonalCovariance.compile_to_cvxpy (fun _ : Fin 1 => (1 : ℚ)) (fun _ => 1)
      ≠ FullCovariance.compile_to_cvxpy (fun _ _ : Fin 1 => (1 : ℚ))
          (fun _ => 1) (fun _ => 1) := by
  simp only [DiagonalCovariance.compile_to_cvxpy, FullCovariance.compile_to_cvxpy,
    quadForm, Fin.sum_univ_one]
  norm_num

/-- Claim C4 (amended): for zero benchmark weights — the class-attribute
default — the diagonal-covariance compile output equals the full-covariance
compile output on `Σ = diag` of the squared standard deviations, for every
holdings vector.  (As stated the claim fails: `DiagonalCovariance`'s term is
quadratic in the raw post-trade holdings, ignoring `benchmark_weights`,
while `FullCovariance` penalizes the deviation from the benchmark.) -/
theorem diagonal_matches_full_with_zero_benchmark {n : ℕ} (sd w : Fin n → ℚ) :
    DiagonalCovariance.compile_to_cvxpy sd w
      = FullCovariance.compile_to_cvxpy
          (fun i j => if i = j then sd i ^ 2 else 0) (fun _ => 0) w := by
  unfold FullCovariance.compile_to_cvxpy quadForm DiagonalCovariance.compile_to_cvxpy
  rw [sum_diag_quad (fun i => sd i ^ 2) (fun i => w i - 0)]
  refine Finset.sum_congr rfl fun i _ => ?_
  ring

/-- Claim C5 (code_bug): the faithful `FactorModelSigma.compile_to_cvxpy`
raises `NameError` on every call — its body references the unbound name
`wplus` while the parameter is `w_plus` — and the intended body (reading
`wplus` as `w_plus`) does equal the full-covariance compile output on the
expanded matrix `exposuresᵀ·factor_Sigma·exposures + diag(idiosync)` with
zero benchmark, for nonnegative idiosyncratic variances. -/
theorem factor_model_compile_nameerror_and_intended_match
    {n k : ℕ} (Eq : Fin k → Fin n → ℚ) (Fq : Fin k → Fin k → ℚ)
    (Dq : Fin n → ℚ) (wq : Fin n → ℚ)
    (E : Fin k → Fin n → ℝ) (F : Fin k → Fin k → ℝ) (D : Fin n → ℝ)
    (w : Fin n → ℝ) (hD : ∀ i, 0 ≤ D i) :
    FactorModelSigma.compile_to_cvxpy Eq Fq Dq wq
      = Except.error (PyError.nameError "wplus")
  ∧ FactorModelSigma.compile_intended E F D w
      = FullCovariance.compile_to_cvxpy
          (fun i j => (∑ a, ∑ b, E a i * F a b * E b j) + (if i = j then D i else 0))
          (fun _ => 0) w := by
  refine ⟨rfl, ?_⟩
  unfold FullCovariance.compile_to_cvxpy FactorModelSigma.compile_intended quadForm
  simp only [sub_zero, mul_add, add_mul, Finset.sum_add_distrib]
  rw [sum_diag_quad D w, sum_factor_quad E F w]
  have hidio : ∀ i : Fin n, (Real.sqrt (D i) * w i) ^ 2 = D i * w i ^ 2 := by
    intro i
    rw [mul_pow, Real.sq_sqrt (hD i)]
  rw [Finset.sum_congr rfl fun i _ => hidio i]
  ring

/-- Witness for C5: concrete one-asset, one-factor inputs (`D = [0]` on the
real side, so the nonnegativity hypothesis is trivial). -/
theorem factor_model_compile_nameerror_witness :
    (∀ i : Fin 1, (0 : ℝ) ≤ (fun _ : Fin 1 => (0 : ℝ)) i)
  ∧ (FactorModelSigma.compile_to_cvxpy (fun _ _ : Fin 1 => (2 : ℚ))
        (fun _ _ => 3) (fun _ => 5) (fun _ => 7)
      = Except.error (PyError.nameError "wplus")
  ∧ FactorModelSigma.compile_intended (fun _ _ : Fin 1 => (2 : ℝ))
        (fun _ _ => 3) (fun _ : Fin 1 => (0 : ℝ)) (fun _ => 7)
      = FullCovariance.compile_to_cvxpy
          (fun i j : Fin 1 => (∑ a : Fin 1, ∑ b : Fin 1,
              (fun _ _ : Fin 1 => (2 : ℝ)) a i * (fun _ _ : Fin 1 => (3 : ℝ)) a b
                * (fun _ _ : Fin 1 => (2 : ℝ)) b j)
            + (if i = j then (fun _ : Fin 1 => (0 : ℝ)) i else 0))
          (fun _ => 0) (fun _ => 7)) :=
  ⟨fun _ => le_refl 0,
    factor_model_compile_nameerror_and_intended_match
      (fun _ _ => 2) (fun _ _ => 3) (fun _ => 5) (fun _ => 7)
      (fun _ _ => 2) (fun _ _ => 3) (fun _ => 0) (fun _ => 7)
      (fun _ => le_refl 0)⟩

/-- Claim C6 (code_bug): on the spec's own scenario — worst-case risk over
two diagonal-covariance components with standard deviations `[0.1, 0.2]`
and `[0.3, 0.05]`, holdings deviation `[0.5, -0.5]` —
`WorstCaseRisk.optimization_log` raises
`AttributeError: 'tuple' object has no attribute 'value'` instead of
reporting each component's realized value: `self.risks` holds the
`(expression, constraints)` pairs returned by the migrated
`BaseRiskModel.weight_expr`, and Python tuples have no `value` attribute
(for the same reason `cvx.max_elemwise(*self.risks)` in `_estimate` is
applied to pairs, not expressions). -/
theorem worst_case_optimization_log_attribute_error :
    WorstCaseRisk.optimization_log
      [⟨fun w => DiagonalCovariance.compile_to_cvxpy ![(1 : ℚ)/10, 2/10] w,
          fun _ => 0, none⟩,
       ⟨fun w => DiagonalCovariance.compile_to_cvxpy ![(3 : ℚ)/10, 5/100] w,
          fun _ => 0, none⟩]
      ![(1 : ℚ)/2, -(1 : ℚ)/2]
      = Except.error (PyError.attributeError "value") := by
  rfl

/-- Counterexample for C8: constructing the exponential-window
forecast-error model fails unconditionally with `NotImplementedError`, so
construction of estimators in this core is not unconditionally
successful. -/
theorem exp_error_risk_construction_always_fails :
    ExponentialWindowReturnsForecastErrorRisk.init ≠ Except.ok () :=
  fun h => Except.noConfusion h

/-- Claim C8 (amended): the rolling/exponential window estimators and
`WorstCaseRisk` only store hyperparameters at construction and never fail,
deferring all data work to pre-evaluation/compile; but
`ExponentialWindowReturnsForecastErrorRisk.__init__` raises
`NotImplementedError` unconditionally (the unimplemented variant fails at
construction, not at first resolution), and `EmpSigma.__init__` asserts its
data is null-free, failing at construction exactly when the supplied data
contains a null. -/
theorem construction_lazy_except_unimplemented_and_empsigma :
    (∀ L b, RollingWindowReturnsForecast.init L b = Except.ok (L, b))
  ∧ (∀ h b, ExponentialWindowReturnsForecast.init h b = Except.ok (h, b))
  ∧ (∀ L b, RollingWindowReturnsForecastErrorRisk.init L b = Except.ok (L, b))
  ∧ (∀ L, RollingWindowFullCovariance.init L = Except.ok L)
  ∧ (∀ h, ExponentialWindowFullCovariance.init h = Except.ok h)
  ∧ (∀ L, RollingWindowDiagonalCovariance.init L = Except.ok L)
  ∧ (∀ h, ExponentialWindowDiagonalCovariance.init h = Except.ok h)
  ∧ (∀ (n : ℕ) (ms : List (LegacyRiskModel n)),
      WorstCaseRisk.init ms = Except.ok ms)
  ∧ ExponentialWindowReturnsForecastErrorRisk.init
      = Except.error PyError.notImplementedError
  ∧ (∀ rets lb, EmpSigma.init rets lb = Except.error PyError.assertionError
      ↔ rets.any (fun row => row.any (fun c => c.isNone)) = true) := by
  refine ⟨fun L b => rfl, fun h b => rfl, fun L b => rfl, fun L => rfl,
    fun h => rfl, fun L => rfl, fun h => rfl, fun n ms => rfl, rfl, ?_⟩
  intro rets lb
  unfold EmpSigma.init
  split
  · next hcond => exact ⟨fun _ => hcond, fun _ => rfl⟩
  · next hcond =>
      refine ⟨fun h => ?_, fun h => absurd h hcond⟩
      exact Except.noConfusion h

/-- Counterexample for C9: one `weight_expr` call on a concrete model
changes the model's `expression` field from unset to the stored compiled
value, so a per-timestep compile is not a pure read leaving every field of
the model unchanged. -/
theorem weight_expr_mutates_expression_field :
    ((BaseRiskModel.weight_expr
        ⟨fun d => d 0, fun _ => 0, none⟩ (fun _ : Fin 1 => (1 : ℚ))).1).expression
      ≠ (none : Option ℚ) := by
  simp [BaseRiskModel.weight_expr]

/-- Claim C9 (amended): the legacy compile entry point
`BaseRiskModel.weight_expr` is deterministic, and modifies no state other
than storing the compiled expression in `self.expression` (kept for
`optimization_log`): the estimate function and benchmark are unchanged, the
stored field is exactly the returned term, and an immediately repeated call
returns the same term and leaves the state fixed. -/
theorem weight_expr_frame_condition {n : ℕ} (m : LegacyRiskModel n)
    (w : Fin n → ℚ) :
    (BaseRiskModel.weight_expr m w).1.estimate = m.estimate
  ∧ (BaseRiskModel.weight_expr m w).1.w_bench = m.w_bench
  ∧ (BaseRiskModel.weight_expr m w).1.expression
      = some ((BaseRiskModel.weight_expr m w).2.1)
  ∧ BaseRiskModel.weight_expr ((BaseRiskModel.weight_expr m w).1) w
      = BaseRiskModel.weight_expr m w :=
  ⟨rfl, rfl, rfl, rfl⟩

/-- Claim C10: `BaseRiskModel.optimization_log` tests the truthiness of the
expression's realized value, so it reports NaN (`none`) both when there is
no realized value and when the realized value is exactly zero; any nonzero
realized value is returned unchanged. -/
theorem optimization_log_zero_reported_as_nan :
    BaseRiskModel.optimization_log (some 0) = none
  ∧ BaseRiskModel.optimization_log none = none
  ∧ ∀ x : ℚ, x ≠ 0 → BaseRiskModel.optimization_log (some x) = some x := by
  refine ⟨by simp [BaseRiskModel.optimization_log, pyTruthy], rfl, ?_⟩
  intro x hx
  simp [BaseRiskModel.optimization_log, pyTruthy, hx]

/-- Witness for C10: the nonzero realized value `17` is reported as is. -/
theorem optimization_log_zero_reported_as_nan_witness :
    (17 : ℚ) ≠ 0 ∧ BaseRiskModel.optimization_log (some 17) = some 17 :=
  ⟨by norm_num, optimization_log_zero_reported_as_nan.2.2 17 (by norm_num)⟩
